import Mathlib

/-!
Shallow embedding of the Finance-tips financial calculator engine
(`Finance-tips-api/helpers/tips.py` together with the constants of
`Finance-tips-api/config/constant.py`).

Modelling conventions:
* Python floats are modelled as exact rationals (`ℚ`); the numeric literals of
  the source (`0.025`, percentages, ...) are exact decimals, so every property
  below is about the ideal arithmetic the source expresses.
* `math.ceil` is `Int.ceil`, Python `round(x, 1)` (round-half-to-even) is
  `pyRound1` below.
* A Python function that fills an `error` key of its result dictionary and
  returns early is modelled as `Except String α`: `Except.error msg` is the
  early return, `Except.ok` carries the success keys of the dictionary.  The
  constant metadata keys (`calculation_type`, `currency`) and the advisory
  string lists (`suggestions`, `recommendations`), which no verified property
  mentions, are not part of the records.
* Python dictionaries of expenses are association lists in insertion order.
* The optional parameters of the source become explicit `Option` arguments.
-/

/-- `HALAL_FINANCE['MIN_MONTHLY_SAVING']` from `config/constant.py`. -/
def MIN_MONTHLY_SAVING : ℚ := 10

/-- `HALAL_FINANCE['MAX_LOAN_DURATION_MONTHS']` from `config/constant.py`. -/
def MAX_LOAN_DURATION_MONTHS : ℤ := 360

/-- `HALAL_FINANCE['MIN_LOAN_AMOUNT']` from `config/constant.py`. -/
def MIN_LOAN_AMOUNT : ℚ := 100

/-- `HALAL_FINANCE['MAX_LOAN_AMOUNT']` from `config/constant.py`. -/
def MAX_LOAN_AMOUNT : ℚ := 10000000

/-- Python `round(q, ndigits=0)` on an exact rational: round to the nearest
integer, ties to the even integer (banker's rounding). -/
def pyRound0 (q : ℚ) : ℤ :=
  let f := Int.floor q
  if q - f < 1 / 2 then f
  else if 1 / 2 < q - f then f + 1
  else if 2 ∣ f then f else f + 1

/-- Python `round(q, 1)` on an exact rational. -/
def pyRound1 (q : ℚ) : ℚ :=
  (pyRound0 (q * 10) : ℚ) / 10

/-- `validate_amount(amount, min_amount, max_amount)` from `helpers/tips.py`.
Returns `some message` when the source would return `(False, message)` and
`none` when it would return `(True, None)`.  The source guards the bound
checks with Python truthiness (`if min_amount and ...`), so a bound of `0` or
`None` disables the check; `amount <= 0` is always rejected first.  The
non-numeric branch (`float(...)` raising) cannot arise for rational inputs. -/
def validate_amount (amount : ℚ) (min_amount max_amount : Option ℚ) : Option String :=
  let minv := min_amount.getD 0
  let maxv := max_amount.getD 0
  if amount ≤ 0 then some "Le montant doit être positif"
  else if minv ≠ 0 ∧ amount < minv then some s!"Le montant minimum est {minv}"
  else if maxv ≠ 0 ∧ amount > maxv then some s!"Le montant maximum est {maxv}"
  else none

/-- `validate_duration(months)` from `helpers/tips.py`. -/
def validate_duration (months : ℤ) : Option String :=
  if months ≤ 0 then some "La durée doit être positive"
  else if months > MAX_LOAN_DURATION_MONTHS then
    some s!"La durée maximum est {MAX_LOAN_DURATION_MONTHS} mois"
  else none

/-- Success keys of the `calculate_savings_plan` result dictionary. -/
structure SavingsPlanOk where
  target_amount : ℚ
  monthly_saving : ℚ
  duration_months : ℤ
  duration_years : ℚ
  total_saved : ℚ

/-- `calculate_savings_plan(target_amount, monthly_saving, duration_months)`
from `helpers/tips.py`.  Case 1 (`monthly_saving is not None`) computes the
duration, case 2 (`duration_months is not None`) computes the monthly saving,
otherwise the source reports a usage error. -/
def calculate_savings_plan (target_amount : ℚ) (monthly_saving : Option ℚ)
    (duration_months : Option ℤ) : Except String SavingsPlanOk :=
  match validate_amount target_amount (some MIN_MONTHLY_SAVING) none with
  | some e => Except.error e
  | none =>
    match monthly_saving with
    | some ms =>
      match validate_amount ms (some MIN_MONTHLY_SAVING) none with
      | some e => Except.error e
      | none =>
        let d : ℤ := Int.ceil (target_amount / ms)
        Except.ok ⟨target_amount, ms, d, pyRound1 ((d : ℚ) / 12), ms * (d : ℚ)⟩
    | none =>
      match duration_months with
      | some d =>
        match validate_duration d with
        | some e => Except.error e
        | none =>
          let ms : ℚ := ((Int.ceil (target_amount / (d : ℚ))) : ℚ)
          Except.ok ⟨target_amount, ms, d, pyRound1 ((d : ℚ) / 12), ms * (d : ℚ)⟩
      | none => Except.error "Veuillez fournir soit l\x27épargne mensuelle, soit la durée"

/-- One entry of the amortization schedule of `generate_payment_schedule`. -/
structure ScheduleEntry where
  month : ℕ
  payment : ℚ
  remaining_balance : ℚ
  cumulative_paid : ℚ

/-- Loop body of `generate_payment_schedule` from `helpers/tips.py`: iterate at
most `fuel` months (`for month in range(1, duration_months + 1)`), paying
`min(monthly_payment, remaining_balance)` each month and stopping as soon as
the remaining balance reaches `0` (`if remaining_balance <= 0: break`). -/
def scheduleAux (loan_amount monthly_payment : ℚ) (remaining : ℚ) (month : ℕ) :
    ℕ → List ScheduleEntry
  | 0 => []
  | fuel + 1 =>
    let payment := min monthly_payment remaining
    let r := remaining - payment
    let entry : ScheduleEntry := ⟨month, payment, r, loan_amount - r⟩
    if r ≤ 0 then [entry]
    else entry :: scheduleAux loan_amount monthly_payment r (month + 1) fuel

/-- The full schedule computed internally by `generate_payment_schedule`,
before the `schedule[:12]` display truncation. -/
def fullPaymentSchedule (loan_amount monthly_payment : ℚ) (duration_months : ℕ) :
    List ScheduleEntry :=
  scheduleAux loan_amount monthly_payment loan_amount 1 duration_months

/-- `generate_payment_schedule(loan_amount, monthly_payment, duration_months)`
from `helpers/tips.py`, including the final `return schedule[:12]`. -/
def generate_payment_schedule (loan_amount monthly_payment : ℚ)
    (duration_months : ℕ) : List ScheduleEntry :=
  (fullPaymentSchedule loan_amount monthly_payment duration_months).take 12

/-- Sum of the `payment` values of a schedule. -/
def paymentsSum (s : List ScheduleEntry) : ℚ :=
  (s.map ScheduleEntry.payment).sum

/-- Success keys of the `calculate_loan_duration` result dictionary. -/
structure LoanOk where
  loan_amount : ℚ
  monthly_payment : ℚ
  duration_months : ℤ
  duration_years : ℚ
  total_paid : ℚ
  last_payment : ℚ
  payment_schedule : List ScheduleEntry

/-- `calculate_loan_duration(loan_amount, monthly_payment)` from
`helpers/tips.py`: validate the amount against the loan bounds, the payment
against a minimum of `1`, require `monthly_payment <= loan_amount`, compute
`duration_months = ceil(loan_amount / monthly_payment)`, reject durations over
the 360-month cap, and fill the result keys exactly as the source does
(`total_paid = monthly_payment * duration_months`). -/
def calculate_loan_duration (loan_amount monthly_payment : ℚ) :
    Except String LoanOk :=
  match validate_amount loan_amount (some MIN_LOAN_AMOUNT) (some MAX_LOAN_AMOUNT) with
  | some e => Except.error e
  | none =>
    match validate_amount monthly_payment (some 1) none with
    | some e => Except.error e
    | none =>
      if monthly_payment > loan_amount then
        Except.error "Le paiement mensuel ne peut pas dépasser le montant du prêt"
      else
        let d : ℤ := Int.ceil (loan_amount / monthly_payment)
        if d > MAX_LOAN_DURATION_MONTHS then
          Except.error s!"La durée de remboursement dépasse le maximum autorisé ({MAX_LOAN_DURATION_MONTHS} mois)"
        else
          Except.ok ⟨loan_amount, monthly_payment, d, pyRound1 ((d : ℚ) / 12),
            monthly_payment * (d : ℚ),
            loan_amount - monthly_payment * ((d : ℚ) - 1),
            generate_payment_schedule loan_amount monthly_payment d.toNat⟩

/-- One entry of the `expense_breakdown` mapping of `simulate_budget`. -/
structure BreakdownEntry where
  category : String
  amount : ℚ
  percentage : ℚ

/-- Success keys of the `simulate_budget` result dictionary.  The three goal
keys are `none` exactly when the source leaves them out of the dictionary. -/
structure BudgetOk where
  monthly_income : ℚ
  total_expenses : ℚ
  expense_breakdown : List BreakdownEntry
  available_savings : ℚ
  savings_rate : ℚ
  budget_status : String
  savings_goal : Option ℚ
  goal_achievable : Option Bool
  goal_gap : Option ℚ

/-- The expense loop of `simulate_budget`: validate each amount with
`validate_amount(amount, min_amount=0)` (reporting the failing category),
accumulate `total_expenses` and build `expense_breakdown` in order, with
`percentage = round(amount / monthly_income * 100 if monthly_income > 0 else 0, 1)`. -/
def expenseLoop (monthly_income : ℚ) :
    List (String × ℚ) → Except String (ℚ × List BreakdownEntry)
  | [] => Except.ok (0, [])
  | (category, amount) :: rest =>
    match validate_amount amount (some 0) none with
    | some e => Except.error s!"Dépense invalide pour {category}: {e}"
    | none =>
      match expenseLoop monthly_income rest with
      | Except.error e => Except.error e
      | Except.ok (total, breakdown) =>
        Except.ok (amount + total,
          ⟨category, amount,
            pyRound1 (if monthly_income > 0 then amount / monthly_income * 100 else 0)⟩
            :: breakdown)

/-- `simulate_budget(monthly_income, expenses, savings_goal)` from
`helpers/tips.py`.  Income is validated with `validate_amount(monthly_income,
min_amount=0)`, each expense through `expenseLoop`, then the savings keys and
the French `budget_status` are filled; an invalid optional `savings_goal` is
silently ignored by the source (the goal keys are simply absent). -/
def simulate_budget (monthly_income : ℚ) (expenses : List (String × ℚ))
    (savings_goal : Option ℚ) : Except String BudgetOk :=
  match validate_amount monthly_income (some 0) none with
  | some e => Except.error e
  | none =>
    match expenseLoop monthly_income expenses with
    | Except.error e => Except.error e
    | Except.ok (total_expenses, expense_breakdown) =>
      let available_savings := monthly_income - total_expenses
      let savings_rate :=
        pyRound1 (if monthly_income > 0 then available_savings / monthly_income * 100 else 0)
      let budget_status :=
        if available_savings > 0 then "excédentaire"
        else if available_savings = 0 then "équilibré" else "déficitaire"
      match savings_goal with
      | some g =>
        if validate_amount g (some 0) none = none then
          let achievable := available_savings ≥ g
          Except.ok ⟨monthly_income, total_expenses, expense_breakdown,
            available_savings, savings_rate, budget_status, some g, some achievable,
            some (if achievable then 0 else g - available_savings)⟩
        else
          Except.ok ⟨monthly_income, total_expenses, expense_breakdown,
            available_savings, savings_rate, budget_status, none, none, none⟩
      | none =>
        Except.ok ⟨monthly_income, total_expenses, expense_breakdown,
          available_savings, savings_rate, budget_status, none, none, none⟩

/-- The `calculate_zakat` result dictionary: `zakat_amount` is present exactly
on the eligible branch, `shortfall` exactly on the other branch. -/
structure ZakatResult where
  eligible : Bool
  net_assets : ℚ
  nisab_value : ℚ
  zakat_amount : Option ℚ
  shortfall : Option ℚ

/-- `calculate_zakat(assets, debts=0, nisab_value=None)` from
`helpers/tips.py`: no validation, `net_assets = assets - debts`, default nisab
`3000`, and the 2.5 percent rule. -/
def calculate_zakat (assets debts : ℚ) (nisab_value : Option ℚ) : ZakatResult :=
  let net_assets := assets - debts
  let nv := nisab_value.getD 3000
  if net_assets ≥ nv then
    ⟨true, net_assets, nv, some (net_assets * (25 / 1000)), none⟩
  else
    ⟨false, net_assets, nv, none, some (nv - net_assets)⟩

/-! ### Helper lemmas -/

/-- Evaluation of `pyRound0` when the fractional part is below one half. -/
lemma pyRound0_low (q : ℚ) (f : ℤ) (h1 : (f : ℚ) ≤ q) (h2 : q < (f : ℚ) + 1 / 2) :
    pyRound0 q = f := by
  have hf : Int.floor q = f := Int.floor_eq_iff.mpr ⟨h1, by linarith⟩
  unfold pyRound0
  rw [hf]
  rw [if_pos (by linarith)]

/-- Evaluation of `pyRound0` when the fractional part is above one half. -/
lemma pyRound0_high (q : ℚ) (f : ℤ) (h1 : (f : ℚ) + 1 / 2 < q) (h2 : q < (f : ℚ) + 1) :
    pyRound0 q = f + 1 := by
  have hf : Int.floor q = f := Int.floor_eq_iff.mpr ⟨by linarith, h2⟩
  unfold pyRound0
  rw [hf]
  rw [if_neg (by linarith), if_pos (by linarith)]

/-- Evaluation of `pyRound1` when the first decimal digit stays. -/
lemma pyRound1_low (q : ℚ) (f : ℤ) (h1 : (f : ℚ) ≤ q * 10) (h2 : q * 10 < (f : ℚ) + 1 / 2) :
    pyRound1 q = (f : ℚ) / 10 := by
  unfold pyRound1
  rw [pyRound0_low (q * 10) f h1 h2]

/-- Evaluation of `pyRound1` when the first decimal digit rounds up. -/
lemma pyRound1_high (q : ℚ) (f : ℤ) (h1 : (f : ℚ) + 1 / 2 < q * 10) (h2 : q * 10 < (f : ℚ) + 1) :
    pyRound1 q = ((f : ℚ) + 1) / 10 := by
  unfold pyRound1
  rw [pyRound0_high (q * 10) f h1 h2]
  push_cast
  ring

/-! ### Theorems -/

/-- C8: for every assets, debts and optional nisab (default 3000),
`calculate_zakat` returns `net_assets = assets - debts`, is eligible exactly
when the net assets reach the nisab, carries `zakat_amount = net_assets * 0.025`
exactly on the eligible branch and `shortfall = nisab - net_assets` exactly on
the ineligible branch. -/
theorem zakat_eligibility_fields (a d : ℚ) (n : Option ℚ) :
    (calculate_zakat a d n).net_assets = a - d ∧
    (calculate_zakat a d n).nisab_value = n.getD 3000 ∧
    ((calculate_zakat a d n).eligible = true ↔ n.getD 3000 ≤ a - d) ∧
    (calculate_zakat a d n).zakat_amount =
      (if n.getD 3000 ≤ a - d then some ((a - d) * (25 / 1000)) else none) ∧
    (calculate_zakat a d n).shortfall =
      (if n.getD 3000 ≤ a - d then none else some (n.getD 3000 - (a - d))) := by
  unfold calculate_zakat
  by_cases h : n.getD 3000 ≤ a - d
  · simp [ge_iff_le, h]
  · simp [ge_iff_le, h]

/-- C9: the four calculators are deterministic: two invocations with identical
arguments return identical results.  Each calculator is embedded as a total
pure function of its arguments (the source reads no clock, randomness or
mutable state on these paths), so this holds definitionally. -/
theorem calculators_deterministic :
    (∀ t ms dm, calculate_savings_plan t ms dm = calculate_savings_plan t ms dm) ∧
    (∀ la mp, calculate_loan_duration la mp = calculate_loan_duration la mp) ∧
    (∀ mi ex sg, simulate_budget mi ex sg = simulate_budget mi ex sg) ∧
    (∀ a d nv, calculate_zakat a d nv = calculate_zakat a d nv) :=
  ⟨fun _ _ _ => rfl, fun _ _ => rfl, fun _ _ _ => rfl, fun _ _ _ => rfl⟩

/-- C10: `calculate_zakat` has no validation and no error branch: every input,
negative values included, produces a well-formed result (net assets always
`assets - debts`, and one of the two branch keys always present); with the
default nisab, `debts > assets` yields negative net assets and a shortfall
exceeding the nisab. -/
theorem zakat_no_validation (a d : ℚ) (n : Option ℚ) :
    (calculate_zakat a d n).net_assets = a - d ∧
    ((calculate_zakat a d n).eligible = true ∨
      (calculate_zakat a d n).shortfall.isSome = true) ∧
    (a < d →
      (calculate_zakat a d none).net_assets < 0 ∧
      (calculate_zakat a d none).shortfall = some (3000 - (a - d)) ∧
      (calculate_zakat a d none).nisab_value < 3000 - (a - d)) := by
  refine ⟨?_, ?_, fun hlt => ⟨?_, ?_, ?_⟩⟩ <;> unfold calculate_zakat
  · by_cases h : a - d ≥ n.getD 3000 <;> simp [h]
  · by_cases h : a - d ≥ n.getD 3000 <;> simp [h]
  · have h : ¬ (a - d ≥ (3000 : ℚ)) := by simp; linarith
    simp [h]
    linarith
  · have h : ¬ (a - d ≥ (3000 : ℚ)) := by simp; linarith
    simp [h]
  · have h : ¬ (a - d ≥ (3000 : ℚ)) := by simp; linarith
    simp [h]
    linarith

/-- Witness for `zakat_no_validation` at assets 2000, debts 2500. -/
theorem zakat_no_validation_witness :
    (calculate_zakat 2000 2500 none).net_assets < 0 ∧
    (calculate_zakat 2000 2500 none).shortfall = some (3000 - ((2000 : ℚ) - 2500)) ∧
    (calculate_zakat 2000 2500 none).nisab_value < 3000 - ((2000 : ℚ) - 2500) :=
  (zakat_no_validation 2000 2500 none).2.2 (by norm_num)

/-- C3 evaluation: `simulate_budget` rejects a zero income and a zero expense
amount, because `validate_amount` rejects `amount <= 0` before the
`min_amount=0` bound is even consulted; the income-is-zero guards of the
source are unreachable. -/
theorem budget_zero_income_rejected :
    simulate_budget 0 [] none = Except.error "Le montant doit être positif" ∧
    simulate_budget 3000 [("transport", 0)] none =
      Except.error "Dépense invalide pour transport: Le montant doit être positif" := by
  constructor
  · unfold simulate_budget validate_amount
    norm_num
  · unfold simulate_budget expenseLoop validate_amount
    norm_num
    rfl

/-- C1 evaluation: at `loan_amount=1000, monthly_payment=300` the code returns
`duration_months = 4` and `last_payment = 100` as the claim states, but
`total_paid = monthly_payment * duration_months = 1200`, not the `1000`
actually repaid; the full amortization schedule of the same call sums to
`1000`, contradicting the `total_paid` key. -/
theorem loan_1000_300_total_paid_mismatch :
    ((calculate_loan_duration 1000 300).toOption.map
      (fun r => (r.duration_months, r.last_payment, r.total_paid))) =
        some (4, 100, 1200) ∧
    ((1200 : ℚ) ≠ 1000) ∧
    paymentsSum (fullPaymentSchedule 1000 300 4) = 1000 := by
  have hceil : Int.ceil ((10 : ℚ) / 3) = 4 := by
    rw [Int.ceil_eq_iff]
    norm_num
  refine ⟨?_, by norm_num, ?_⟩
  · unfold calculate_loan_duration validate_amount
    norm_num [hceil, MIN_LOAN_AMOUNT, MAX_LOAN_AMOUNT, MAX_LOAN_DURATION_MONTHS]
    exact ⟨_, rfl, rfl, rfl, rfl⟩
  · unfold fullPaymentSchedule
    norm_num [scheduleAux, paymentsSum, min_def]

/-- C4 counterexample: positivity of the inputs is not enough for a non-error
result: `calculate_savings_plan` also enforces the minimum monthly saving of
`10` on both the target amount and the monthly saving, so `target_amount = 5`
(with `monthly_saving = 20`) and `monthly_saving = 5` (with
`target_amount = 1000`) are both rejected although all values are positive. -/
theorem savings_plan_small_amount_cex :
    (calculate_savings_plan 5 (some 20) none).toOption = none ∧
    (calculate_savings_plan 1000 (some 5) none).toOption = none := by
  constructor
  · unfold calculate_savings_plan validate_amount
    norm_num [MIN_MONTHLY_SAVING]
    rfl
  · unfold calculate_savings_plan validate_amount
    norm_num [MIN_MONTHLY_SAVING]
    rfl

/-- C4 amended: for every `target_amount ≥ 10` and `monthly_saving ≥ 10` (the
configured minimum monthly saving), `calculate_savings_plan` returns a
non-error result with `duration_months = ceil(target_amount / monthly_saving)`
and `monthly_saving * duration_months ≥ target_amount`. -/
theorem savings_plan_min_ten_correct (t m : ℚ)
    (ht : MIN_MONTHLY_SAVING ≤ t) (hm : MIN_MONTHLY_SAVING ≤ m) :
    calculate_savings_plan t (some m) none =
      Except.ok ⟨t, m, Int.ceil (t / m), pyRound1 ((Int.ceil (t / m) : ℚ) / 12),
        m * (Int.ceil (t / m) : ℚ)⟩ ∧
    t ≤ m * (Int.ceil (t / m) : ℚ) := by
  norm_num [MIN_MONTHLY_SAVING] at ht hm
  have hm0 : 0 < m := by linarith
  have hv : ∀ x : ℚ, 10 ≤ x → validate_amount x (some MIN_MONTHLY_SAVING) none = none := by
    intro x hx
    unfold validate_amount
    simp only [Option.getD_some, Option.getD_none, MIN_MONTHLY_SAVING]
    rw [if_neg (by linarith), if_neg (by push_neg; intro; linarith),
      if_neg (by push_neg; intro h; exact absurd rfl h)]
  constructor
  · unfold calculate_savings_plan
    simp only [hv t ht, hv m hm]
  · have hc := Int.le_ceil (t / m)
    calc t = m * (t / m) := by field_simp
    _ ≤ m * (Int.ceil (t / m) : ℚ) := by
        exact mul_le_mul_of_nonneg_left hc hm0.le

/-- Witness for `savings_plan_min_ten_correct` at the spec example
`target_amount = 1200, monthly_saving = 100`. -/
theorem savings_plan_min_ten_correct_witness :
    calculate_savings_plan 1200 (some 100) none =
      Except.ok ⟨1200, 100, Int.ceil ((1200 : ℚ) / 100),
        pyRound1 ((Int.ceil ((1200 : ℚ) / 100) : ℚ) / 12),
        100 * (Int.ceil ((1200 : ℚ) / 100) : ℚ)⟩ ∧
    (1200 : ℚ) ≤ 100 * (Int.ceil ((1200 : ℚ) / 100) : ℚ) :=
  savings_plan_min_ten_correct 1200 100 (by norm_num [MIN_MONTHLY_SAVING])
    (by norm_num [MIN_MONTHLY_SAVING])

/-- C5: on every accepted loan input (amount within the loan bounds, payment
at least `1` and at most the amount, implied duration within the 360-month
cap), `calculate_loan_duration` succeeds with
`duration_months = ceil(loan_amount / monthly_payment)`,
`last_payment = loan_amount - monthly_payment * (duration_months - 1)`, and
`0 < last_payment ≤ monthly_payment`. -/
theorem loan_duration_invariants (loan monthly : ℚ)
    (h1 : MIN_LOAN_AMOUNT ≤ loan) (h2 : loan ≤ MAX_LOAN_AMOUNT)
    (h3 : 1 ≤ monthly) (h4 : monthly ≤ loan)
    (h5 : Int.ceil (loan / monthly) ≤ MAX_LOAN_DURATION_MONTHS) :
    calculate_loan_duration loan monthly =
      Except.ok ⟨loan, monthly, Int.ceil (loan / monthly),
        pyRound1 ((Int.ceil (loan / monthly) : ℚ) / 12),
        monthly * (Int.ceil (loan / monthly) : ℚ),
        loan - monthly * ((Int.ceil (loan / monthly) : ℚ) - 1),
        generate_payment_schedule loan monthly (Int.ceil (loan / monthly)).toNat⟩ ∧
    0 < loan - monthly * ((Int.ceil (loan / monthly) : ℚ) - 1) ∧
    loan - monthly * ((Int.ceil (loan / monthly) : ℚ) - 1) ≤ monthly := by
  norm_num [MIN_LOAN_AMOUNT, MAX_LOAN_AMOUNT] at h1 h2
  norm_num [MAX_LOAN_DURATION_MONTHS] at h5
  have hm0 : 0 < monthly := by linarith
  have hl0 : 0 < loan := by linarith
  refine ⟨?_, ?_, ?_⟩
  · have hva : validate_amount loan (some MIN_LOAN_AMOUNT) (some MAX_LOAN_AMOUNT) = none := by
      unfold validate_amount
      simp only [Option.getD_some, MIN_LOAN_AMOUNT, MAX_LOAN_AMOUNT]
      rw [if_neg (by linarith), if_neg (by push_neg; intro; linarith),
        if_neg (by push_neg; intro; linarith)]
    have hvm : validate_amount monthly (some 1) none = none := by
      unfold validate_amount
      simp only [Option.getD_some, Option.getD_none]
      rw [if_neg (by linarith), if_neg (by push_neg; intro; linarith),
        if_neg (by push_neg; intro h; exact absurd rfl h)]
    unfold calculate_loan_duration
    simp only [hva, hvm]
    rw [if_neg (not_lt.mpr h4), if_neg (by rw [MAX_LOAN_DURATION_MONTHS]; exact not_lt.mpr h5)]
  · have hc := Int.ceil_lt_add_one (loan / monthly)
    have hlt : monthly * ((Int.ceil (loan / monthly) : ℚ) - 1) < loan := by
      calc monthly * ((Int.ceil (loan / monthly) : ℚ) - 1)
          < monthly * (loan / monthly) := by
            apply mul_lt_mul_of_pos_left (by linarith) hm0
      _ = loan := by field_simp
    linarith
  · have hc := Int.le_ceil (loan / monthly)
    have hle : loan ≤ monthly * (Int.ceil (loan / monthly) : ℚ) := by
      calc loan = monthly * (loan / monthly) := by field_simp
      _ ≤ monthly * (Int.ceil (loan / monthly) : ℚ) :=
          mul_le_mul_of_nonneg_left hc hm0.le
    linarith

/-- Witness for `loan_duration_invariants` at the spec example
`loan_amount = 1000, monthly_payment = 300`. -/
theorem loan_duration_invariants_witness :
    calculate_loan_duration 1000 300 =
      Except.ok ⟨1000, 300, Int.ceil ((1000 : ℚ) / 300),
        pyRound1 ((Int.ceil ((1000 : ℚ) / 300) : ℚ) / 12),
        300 * (Int.ceil ((1000 : ℚ) / 300) : ℚ),
        1000 - 300 * ((Int.ceil ((1000 : ℚ) / 300) : ℚ) - 1),
        generate_payment_schedule 1000 300 (Int.ceil ((1000 : ℚ) / 300)).toNat⟩ ∧
    0 < 1000 - 300 * ((Int.ceil ((1000 : ℚ) / 300) : ℚ) - 1) ∧
    1000 - 300 * ((Int.ceil ((1000 : ℚ) / 300) : ℚ) - 1) ≤ 300 :=
  loan_duration_invariants 1000 300 (by norm_num [MIN_LOAN_AMOUNT])
    (by norm_num [MAX_LOAN_AMOUNT]) (by norm_num) (by norm_num)
    (by rw [show Int.ceil ((1000 : ℚ) / 300) = 4 from by rw [Int.ceil_eq_iff]; norm_num]
        norm_num [MAX_LOAN_DURATION_MONTHS])

/-- Invariant of the schedule loop: starting from a positive remaining balance
that the remaining fuel can cover, the generated payments sum to exactly that
balance and the last generated entry has a zero remaining balance and a
cumulative paid amount equal to the loan. -/
lemma scheduleAux_spec (loan monthly : ℚ) (hm : 0 < monthly) :
    ∀ (fuel : ℕ) (remaining : ℚ) (month : ℕ), 0 < remaining →
      remaining ≤ (fuel : ℚ) * monthly →
      paymentsSum (scheduleAux loan monthly remaining month fuel) = remaining ∧
      (scheduleAux loan monthly remaining month fuel).getLast?.map
        (fun e => (e.remaining_balance, e.cumulative_paid)) = some (0, loan) := by
  intro fuel
  induction fuel with
  | zero =>
    intro remaining month h0 hle
    exfalso
    norm_num at hle
    linarith
  | succ n ih =>
    intro remaining month h0 hle
    by_cases hcase : remaining ≤ monthly
    · have hpay : min monthly remaining = remaining := min_eq_right hcase
      simp only [scheduleAux, hpay]
      rw [if_pos (by linarith : remaining - remaining ≤ 0)]
      constructor
      · simp [paymentsSum]
      · simp
    · push_neg at hcase
      have hpay : min monthly remaining = monthly := min_eq_left hcase.le
      have hrec := ih (remaining - monthly) (month + 1) (by linarith)
        (by push_cast at hle ⊢; linarith)
      simp only [scheduleAux, hpay]
      rw [if_neg (by push_neg; linarith : ¬ remaining - monthly ≤ 0)]
      constructor
      · simp only [paymentsSum, List.map_cons, List.sum_cons] at hrec ⊢
        rw [hrec.1]
        ring
      · have hne : scheduleAux loan monthly (remaining - monthly) (month + 1) n ≠ [] := by
          intro hnil
          rw [hnil] at hrec
          simp at hrec
        obtain ⟨b, l, hbl⟩ := List.exists_cons_of_ne_nil hne
        rw [hbl, List.getLast?_cons_cons]
        rw [hbl] at hrec
        exact hrec.2

/-- C6: on every accepted loan input, the amortization schedule extended to
completion (all `duration_months = ceil(loan_amount / monthly_payment)` months
computed, before the first-12 display truncation) has payments summing exactly
to `loan_amount`, and its final entry has `remaining_balance = 0` and
`cumulative_paid = loan_amount`. -/
theorem loan_schedule_sums_to_amount (loan monthly : ℚ)
    (h1 : MIN_LOAN_AMOUNT ≤ loan) (h2 : loan ≤ MAX_LOAN_AMOUNT)
    (h3 : 1 ≤ monthly) (h4 : monthly ≤ loan)
    (h5 : Int.ceil (loan / monthly) ≤ MAX_LOAN_DURATION_MONTHS) :
    paymentsSum (fullPaymentSchedule loan monthly (Int.ceil (loan / monthly)).toNat) =
      loan ∧
    (fullPaymentSchedule loan monthly (Int.ceil (loan / monthly)).toNat).getLast?.map
      (fun e => (e.remaining_balance, e.cumulative_paid)) = some (0, loan) := by
  norm_num [MIN_LOAN_AMOUNT] at h1
  have hm0 : 0 < monthly := by linarith
  have hl0 : 0 < loan := by linarith
  have hdpos : 0 < Int.ceil (loan / monthly) := Int.ceil_pos.mpr (div_pos hl0 hm0)
  have hcast : ((Int.ceil (loan / monthly)).toNat : ℚ) = (Int.ceil (loan / monthly) : ℚ) := by
    exact_mod_cast Int.toNat_of_nonneg hdpos.le
  have hcover : loan ≤ ((Int.ceil (loan / monthly)).toNat : ℚ) * monthly := by
    rw [hcast]
    have hc := Int.le_ceil (loan / monthly)
    calc loan = (loan / monthly) * monthly := by field_simp
    _ ≤ (Int.ceil (loan / monthly) : ℚ) * monthly :=
        mul_le_mul_of_nonneg_right hc hm0.le
  exact scheduleAux_spec loan monthly hm0 (Int.ceil (loan / monthly)).toNat loan 1 hl0 hcover

/-- Witness for `loan_schedule_sums_to_amount` at
`loan_amount = 1000, monthly_payment = 300`. -/
theorem loan_schedule_sums_to_amount_witness :
    paymentsSum (fullPaymentSchedule 1000 300 (Int.ceil ((1000 : ℚ) / 300)).toNat) =
      1000 ∧
    (fullPaymentSchedule 1000 300 (Int.ceil ((1000 : ℚ) / 300)).toNat).getLast?.map
      (fun e => (e.remaining_balance, e.cumulative_paid)) = some (0, 1000) :=
  loan_schedule_sums_to_amount 1000 300 (by norm_num [MIN_LOAN_AMOUNT])
    (by norm_num [MAX_LOAN_AMOUNT]) (by norm_num) (by norm_num)
    (by rw [show Int.ceil ((1000 : ℚ) / 300) = 4 from by rw [Int.ceil_eq_iff]; norm_num]
        norm_num [MAX_LOAN_DURATION_MONTHS])

/-- Inversion on a successful `simulate_budget` call: the success record echoes
the income, its available savings are income minus total expenses, and its
status is the French three-way sign classification. -/
lemma simulate_budget_ok_shape (income : ℚ) (expenses : List (String × ℚ))
    (goal : Option ℚ) (r : BudgetOk)
    (h : simulate_budget income expenses goal = Except.ok r) :
    r.monthly_income = income ∧
    r.available_savings = r.monthly_income - r.total_expenses ∧
    r.budget_status = (if 0 < r.available_savings then "excédentaire"
      else if r.available_savings = 0 then "équilibré" else "déficitaire") := by
  unfold simulate_budget at h
  repeat' split at h
  all_goals first
    | exact Except.noConfusion h
    | (injection h with h
       subst h
       refine ⟨rfl, rfl, ?_⟩
       split
       all_goals first
         | rfl
         | (exfalso; linarith))

/-- The sign trichotomy of the French status string. -/
lemma status_spec (s : ℚ) :
    (((if 0 < s then "excédentaire" else if s = 0 then "équilibré"
        else "déficitaire") : String) = "excédentaire" ↔ 0 < s) ∧
    (((if 0 < s then "excédentaire" else if s = 0 then "équilibré"
        else "déficitaire") : String) = "équilibré" ↔ s = 0) ∧
    (((if 0 < s then "excédentaire" else if s = 0 then "équilibré"
        else "déficitaire") : String) = "déficitaire" ↔ s < 0) := by
  rcases lt_trichotomy s 0 with hs | hs | hs
  · rw [if_neg (by linarith), if_neg (by linarith)]
    refine ⟨⟨fun h => absurd h (by decide), fun h => absurd h (by linarith)⟩,
      ⟨fun h => absurd h (by decide), fun h => absurd h (by linarith)⟩,
      ⟨fun _ => hs, fun _ => rfl⟩⟩
  · rw [if_neg (by linarith), if_pos hs]
    refine ⟨⟨fun h => absurd h (by decide), fun h => absurd h (by linarith)⟩,
      ⟨fun _ => hs, fun _ => rfl⟩,
      ⟨fun h => absurd h (by decide), fun h => absurd h (by linarith)⟩⟩
  · rw [if_pos hs]
    refine ⟨⟨fun _ => hs, fun _ => rfl⟩,
      ⟨fun h => absurd h (by decide), fun h => absurd h (by linarith)⟩,
      ⟨fun h => absurd h (by decide), fun h => absurd h (by linarith)⟩⟩

/-- C7: every accepted budget input satisfies
`available_savings + total_expenses = monthly_income`, and the three statuses
classify the sign of `available_savings` exhaustively and mutually
exclusively. -/
theorem budget_identity_and_status_partition (income : ℚ)
    (expenses : List (String × ℚ)) (goal : Option ℚ) (r : BudgetOk)
    (h : simulate_budget income expenses goal = Except.ok r) :
    r.available_savings + r.total_expenses = r.monthly_income ∧
    (r.budget_status = "excédentaire" ↔ 0 < r.available_savings) ∧
    (r.budget_status = "équilibré" ↔ r.available_savings = 0) ∧
    (r.budget_status = "déficitaire" ↔ r.available_savings < 0) := by
  obtain ⟨h1, h2, h3⟩ := simulate_budget_ok_shape income expenses goal r h
  refine ⟨by rw [h2, h1]; ring, ?_, ?_, ?_⟩
  · rw [h3]
    exact (status_spec r.available_savings).1
  · rw [h3]
    exact (status_spec r.available_savings).2.1
  · rw [h3]
    exact (status_spec r.available_savings).2.2

/-- The success record of the spec example
`simulate_budget(3000, housing 1200 / food 400)`. -/
def budgetExampleOk : BudgetOk :=
  ⟨3000, 1600, [⟨"housing", 1200, 40⟩, ⟨"food", 400, 133 / 10⟩], 1400, 467 / 10,
    "excédentaire", none, none, none⟩

/-- Evaluation of the spec example budget call. -/
lemma budget_example_eval :
    simulate_budget 3000 [("housing", 1200), ("food", 400)] none =
      Except.ok budgetExampleOk := by
  have hp1 : pyRound1 40 = 40 := by
    rw [pyRound1_low 40 400 (by norm_num) (by norm_num)]
    norm_num
  have hp2 : pyRound1 ((40 : ℚ) / 3) = 133 / 10 := by
    rw [pyRound1_low ((40 : ℚ) / 3) 133 (by norm_num) (by norm_num)]
    norm_num
  have hp3 : pyRound1 ((140 : ℚ) / 3) = 467 / 10 := by
    rw [pyRound1_high ((140 : ℚ) / 3) 466 (by norm_num) (by norm_num)]
    norm_num
  unfold budgetExampleOk
  norm_num [simulate_budget, expenseLoop, validate_amount, hp1, hp2, hp3]

/-- Witness for `budget_identity_and_status_partition` at the spec example
budget. -/
theorem budget_identity_and_status_partition_witness :
    budgetExampleOk.available_savings + budgetExampleOk.total_expenses =
      budgetExampleOk.monthly_income ∧
    (budgetExampleOk.budget_status = "excédentaire" ↔
      0 < budgetExampleOk.available_savings) ∧
    (budgetExampleOk.budget_status = "équilibré" ↔
      budgetExampleOk.available_savings = 0) ∧
    (budgetExampleOk.budget_status = "déficitaire" ↔
      budgetExampleOk.available_savings < 0) :=
  budget_identity_and_status_partition 3000 [("housing", 1200), ("food", 400)]
    none budgetExampleOk budget_example_eval

/-- C2 counterexample: the example budget call returns the French status
string `"excédentaire"`, which is none of `"surplus"`, `"balanced"`,
`"deficit"`; the claimed English status set does not occur in the code. -/
theorem budget_status_not_english_cex :
    ((simulate_budget 3000 [("housing", 1200), ("food", 400)] none).toOption.map
      (fun r => r.budget_status)) = some "excédentaire" ∧
    "excédentaire" ≠ "surplus" ∧ "excédentaire" ≠ "balanced" ∧
    "excédentaire" ≠ "deficit" := by
  refine ⟨?_, by decide, by decide, by decide⟩
  rw [budget_example_eval]
  rfl

/-- C2 amended: for every accepted input, `budget_status` is drawn from the
French set `{"excédentaire", "équilibré", "déficitaire"}` according to the
sign of `available_savings` (positive, zero, negative respectively); the
example call `simulate_budget(3000, housing 1200 / food 400)` returns
`total_expenses = 1600`, `available_savings = 1400`, `savings_rate = 46.7` and
`budget_status = "excédentaire"`. -/
theorem budget_status_french_values :
    (∀ (income : ℚ) (expenses : List (String × ℚ)) (goal : Option ℚ)
      (r : BudgetOk), simulate_budget income expenses goal = Except.ok r →
      r.budget_status = (if 0 < r.available_savings then "excédentaire"
        else if r.available_savings = 0 then "équilibré" else "déficitaire")) ∧
    ((simulate_budget 3000 [("housing", 1200), ("food", 400)] none).toOption.map
      (fun r => (r.total_expenses, r.available_savings, r.savings_rate,
        r.budget_status)) = some (1600, 1400, 46.7, "excédentaire")) := by
  constructor
  · intro income expenses goal r h
    exact (simulate_budget_ok_shape income expenses goal r h).2.2
  · rw [budget_example_eval]
    norm_num [budgetExampleOk]
    exact ⟨_, rfl, rfl, rfl, rfl, rfl⟩

/-- Witness for `budget_status_french_values` at the spec example budget. -/
theorem budget_status_french_values_witness :
    budgetExampleOk.budget_status =
      (if 0 < budgetExampleOk.available_savings then "excédentaire"
       else if budgetExampleOk.available_savings = 0 then "équilibré"
       else "déficitaire") :=
  budget_status_french_values.1 3000 [("housing", 1200), ("food", 400)] none
    budgetExampleOk budget_example_eval
